import Mathlib

/-!
# Verification of the cabreaich-common async HTTP client core

A shallow embedding of `cabreaich_common/clients.py` together with the
exception taxonomy of `cabreaich_common/exceptions.py` and the
`QLogicResponse` schema of `cabreaich_common/models.py`.

The HTTP layer (the `httpx` connection pool) is an external collaborator:
it is modelled by an explicit `Pool` state with its documented lifecycle
behaviour, and the outcome of one `post` call is an explicit
`DispatchOutcome` parameter.  JSON parsing of a response body is modelled
by the `jsonBody` field of `HttpResponse`: the value the Python `json` module
would produce for the body, `none` when the body is not valid JSON.
Side effects that the properties observe (network calls, log records,
calls of `response.json()`) are counted explicitly in the traces.
-/

namespace Cabreaich

/-- JSON values as produced by `json.loads` on a response body.  Numeric
literals are kept uninterpreted: none of the verified properties computes
with numbers. -/
inductive JVal where
  | jnull
  | jbool (b : Bool)
  | jnum (lit : String)
  | jstr (s : String)
  | jarr (elems : List JVal)
  | jobj (fields : List (String × JVal))

/-- The Python exception classes the embedded code can mention: the three
classes defined by `exceptions.py` (`CabreaichError`, `APIError`,
`ValidationError`), the built-ins and library classes the code raises or
catches, and the three kind names the specification uses
(`TransportError`, `StatusError`, `DecodeError`) so that their absence
from the code can be stated. -/
inductive PyType where
  | ExceptionTy
  | CabreaichError
  | APIError
  | ValidationError
  | ValueError
  | NameError
  | HTTPStatusError
  | RequestError
  | JSONDecodeError
  | PydanticValidationError
  | TransportError
  | StatusError
  | DecodeError
deriving DecidableEq, Repr

/-- The exception classes `exceptions.py` defines (lines 3, 7, 41). -/
def exceptions_module_types : List PyType :=
  [PyType.CabreaichError, PyType.APIError, PyType.ValidationError]

/-- A raised Python exception instance.  `apiError` carries the fields of
`APIError.__init__` (message, status_code, fallback_message);
`validationError` those of `ValidationError` (message; the optional
`details` dict is always `None` in the embedded code paths). -/
inductive PyExc where
  | apiError (message : String) (statusCode : Option Nat) (fallbackMessage : Option String)
  | validationError (message : String)
  | valueError (message : String)
  | nameError (missing : String)
  | httpStatusError (status : Nat)
  | requestError (message : String)
  | jsonDecodeError (message : String)
  | pydanticError (message : String)
deriving DecidableEq, Repr

/-- The class of a raised exception. -/
def PyExc.ty : PyExc → PyType
  | .apiError _ _ _ => PyType.APIError
  | .validationError _ => PyType.ValidationError
  | .valueError _ => PyType.ValueError
  | .nameError _ => PyType.NameError
  | .httpStatusError _ => PyType.HTTPStatusError
  | .requestError _ => PyType.RequestError
  | .jsonDecodeError _ => PyType.JSONDecodeError
  | .pydanticError _ => PyType.PydanticValidationError

/-- The method resolution order of each exception instance (which classes
`isinstance` accepts), following `exceptions.py`: `APIError` and
`ValidationError` both extend `CabreaichError`, which extends `Exception`;
`ValueError` and the library exceptions are unrelated to them. -/
def PyExc.mro : PyExc → List PyType
  | .apiError _ _ _ => [PyType.APIError, PyType.CabreaichError, PyType.ExceptionTy]
  | .validationError _ => [PyType.ValidationError, PyType.CabreaichError, PyType.ExceptionTy]
  | .valueError _ => [PyType.ValueError, PyType.ExceptionTy]
  | .nameError _ => [PyType.NameError, PyType.ExceptionTy]
  | .httpStatusError _ => [PyType.HTTPStatusError, PyType.ExceptionTy]
  | .requestError _ => [PyType.RequestError, PyType.ExceptionTy]
  | .jsonDecodeError _ => [PyType.JSONDecodeError, PyType.ValueError, PyType.ExceptionTy]
  | .pydanticError _ => [PyType.PydanticValidationError, PyType.ExceptionTy]

/-- Python `isinstance(e, c)`. -/
def PyExc.isInstanceOf (e : PyExc) (c : PyType) : Bool :=
  e.mro.contains c

/-- Python `str(e)` for the exceptions the embedded code interpolates into
messages (the f-string `f"... {e}"` occurrences). -/
def PyExc.pyStr : PyExc → String
  | .apiError m sc _ =>
      match sc with
      | some c => "[Status " ++ toString c ++ "] " ++ m
      | none => m
  | .validationError m => m
  | .valueError m => m
  | .nameError n => "name \x27" ++ n ++ "\x27 is not defined"
  | .httpStatusError s => "HTTP status error " ++ toString s
  | .requestError m => m
  | .jsonDecodeError m => m
  | .pydanticError m => m

/-- One HTTP response as `_handle_response` sees it: `status_code`,
`reason_phrase` and `text` straight from `httpx.Response`, plus the
modelled outcome of `response.json()`: the parsed value, or `none` when
`text` is not valid JSON (in which case `response.json()` raises
`json.JSONDecodeError`). -/
structure HttpResponse where
  statusCode : Nat
  reasonPhrase : String
  body : String
  jsonBody : Option JVal

/-- First binding of a key in the field list of a JSON object (Python dict
lookup; `json.loads` keeps the last duplicate key, so field lists obtained
from JSON have distinct keys and first = only). -/
def lookupField (fields : List (String × JVal)) (key : String) : Option JVal :=
  match fields with
  | [] => none
  | (k, v) :: rest => if k = key then some v else lookupField rest key

/-- The `QLogicResponse` schema of `models.py` (lines 85–95): required
string field `type`, field `payload : Dict[str, Any]` with
`default_factory=dict`, extra fields allowed (`extra = "allow"`). -/
structure QLogicResponse where
  type : String
  payload : List (String × JVal)

/-- Pydantic `QLogicResponse.model_validate` on a parsed JSON value, following
pydantic v2 lax validation of the schema above: the input must be a JSON
object; `type` must be present and a JSON string; `payload`, when present,
must be a JSON object (defaulting to the empty dict when absent); any
extra field is allowed and ignored.  A failure raises
`pydantic.ValidationError` (the messages come from pydantic, modelled as fixed
strings). -/
def QLogicResponse.model_validate (j : JVal) : Except PyExc QLogicResponse :=
  match j with
  | .jobj fields =>
      match lookupField fields "type" with
      | some (.jstr t) =>
          match lookupField fields "payload" with
          | none => .ok { type := t, payload := [] }
          | some (.jobj p) => .ok { type := t, payload := p }
          | some _ => .error (.pydanticError "payload: Input should be a valid dictionary")
      | some _ => .error (.pydanticError "type: Input should be a valid string")
      | none => .error (.pydanticError "type: Field required")
  | _ => .error (.pydanticError "Input should be a valid dictionary")

/-- What `_handle_response` returns on success: a schema-validated object
when a `response_model` was passed, else the parsed JSON, else (lenient
fallback) the raw response text. -/
inductive DecResult where
  | typed (r : QLogicResponse)
  | rawJson (j : JVal)
  | rawText (s : String)

/-- The diagnostic message of the `APIError` raised for a 4xx/5xx
response (clients.py lines 82–86): status code, reason phrase, and the
body truncated to its first 200 characters. -/
def statusErrorMessage (response : HttpResponse) : String :=
  "API request failed: " ++ toString response.statusCode ++ " "
    ++ response.reasonPhrase ++ " - " ++ response.body.take 200

/-- Python `str(e)` of the `json.JSONDecodeError` raised by `response.json()` on
a body that is not valid JSON (position details abstracted). -/
def jsonDecodeDetail : String := "Expecting value: line 1 column 1 (char 0)"

/-- The result of one `_handle_response` call together with the effects
the verified properties observe: how often `response.json()` was invoked
and how many log records were emitted. -/
structure HandleTrace where
  result : Except PyExc DecResult
  jsonCalls : Nat
  logCalls : Nat

/-- Embeds `AsyncBaseClient._handle_response` (clients.py lines 63–94).
`withModel = true` means a `response_model` was passed (the only model
used in the source is `QLogicResponse`, so validation follows that schema).
Control flow of the source: `response.raise_for_status()` raises
`httpx.HTTPStatusError` for status >= 400, caught by the first `except`
clause, which logs once and raises `APIError` with the truncated body and
`status_code`; otherwise, with a model, `response.json()` is parsed and
validated — a `JSONDecodeError` or pydantic `ValidationError` falls to the
generic `except Exception` clause, which logs once and raises
`APIError(f"Error handling response: \x7be\x7d", status_code=response.status_code)`;
without a model, `response.json()` is returned, falling back to
`response.text` (no error, no log) when JSON parsing fails.  The
`except httpx.RequestError` clause of the source is unreachable here: the
response object is already in hand and none of the calls in the `try`
body raises a `RequestError`. -/
def handle_response (response : HttpResponse) (withModel : Bool) : HandleTrace :=
  if response.statusCode ≥ 400 then
    { result := .error (.apiError (statusErrorMessage response) (some response.statusCode) none)
      jsonCalls := 0
      logCalls := 1 }
  else if withModel then
    match response.jsonBody with
    | some j =>
        match QLogicResponse.model_validate j with
        | .ok v =>
            { result := .ok (.typed v), jsonCalls := 1, logCalls := 0 }
        | .error e =>
            { result := .error (.apiError ("Error handling response: " ++ e.pyStr)
                (some response.statusCode) none)
              jsonCalls := 1
              logCalls := 1 }
    | none =>
        { result := .error (.apiError ("Error handling response: "
            ++ (PyExc.jsonDecodeError jsonDecodeDetail).pyStr)
            (some response.statusCode) none)
          jsonCalls := 1
          logCalls := 1 }
  else
    match response.jsonBody with
    | some j => { result := .ok (.rawJson j), jsonCalls := 1, logCalls := 0 }
    | none => { result := .ok (.rawText response.body), jsonCalls := 1, logCalls := 0 }

/-- The outcome of the single `await self._client.post(...)` call of a
service operation: a response, or a network-level `httpx.RequestError`
(timeout, connection refused, DNS/TLS failure) raised by the pool. -/
inductive DispatchOutcome where
  | ok (response : HttpResponse)
  | netError (e : PyExc)

/-- The result of one service operation together with its observable
effects: requests issued on the pool, log records emitted, and the URL
path posted to (none when no request was made). -/
structure OpTrace where
  result : Except PyExc DecResult
  netCalls : Nat
  logCalls : Nat
  path : Option String := none

/-- The shared `try/except` body of the three service operations
(clients.py lines 131–139, 155–162, 176–185): post, handle the response;
`except APIError: raise` re-raises the standardized error unchanged;
`except Exception as e` logs once and raises
`APIError(wrapMessage + str(e))` (no status code). -/
def service_call (wrapMessage : String) (withModel : Bool) (url : String)
    (dispatch : DispatchOutcome) : OpTrace :=
  match dispatch with
  | .ok response =>
      let t := handle_response response withModel
      match t.result with
      | .ok v => { result := .ok v, netCalls := 1, logCalls := t.logCalls, path := some url }
      | .error e =>
          if e.isInstanceOf PyType.APIError then
            { result := .error e, netCalls := 1, logCalls := t.logCalls, path := some url }
          else
            { result := .error (.apiError (wrapMessage ++ e.pyStr) none none)
              netCalls := 1
              logCalls := t.logCalls + 1
              path := some url }
  | .netError e =>
      { result := .error (.apiError (wrapMessage ++ e.pyStr) none none)
        netCalls := 1
        logCalls := 1
        path := some url }

/-- Embeds `AsyncIntegrationClient.post_event` (clients.py lines 129–139): posts
the serialized event to `/integration/event` and handles the response with
no model. -/
def post_event (dispatch : DispatchOutcome) : OpTrace :=
  service_call "Unexpected error posting event: " false "/integration/event" dispatch

/-- Embeds `AsyncSpeechApiClient.control_audio` (clients.py lines 150–162): for
an action other than "pause"/"resume" raises the built-in `ValueError`
before anything else — in particular before the `post`, so no request is
issued and nothing is logged; otherwise posts to
`/session/\x7bsession_id\x7d/audio/\x7baction\x7d` and handles the
response with no model. -/
def control_audio (sessionId : String) (action : String)
    (dispatch : DispatchOutcome) : OpTrace :=
  if ¬ (action = "pause" ∨ action = "resume") then
    { result := .error (.valueError
        "Invalid action for control_audio, must be \x27pause\x27 or \x27resume\x27")
      netCalls := 0
      logCalls := 0
      path := none }
  else
    service_call "Unexpected error controlling speech audio: " false
      ("/session/" ++ sessionId ++ "/audio/" ++ action) dispatch

/-- Embeds `AsyncQLogicClient.route_turn` (clients.py lines 173–185): posts the
serialized turn input to `/qlogic/route_turn` and handles the response
with `response_model=QLogicResponse`. -/
def route_turn (dispatch : DispatchOutcome) : OpTrace :=
  service_call "Unexpected error routing turn: " true "/qlogic/route_turn" dispatch

/-- The class of the exception a finished call raised, `none` on
success. -/
def raisedType {α : Type} : Except PyExc α → Option PyType
  | .error e => some e.ty
  | .ok _ => none

/-- The `status_code` attribute of the raised `APIError` (inner `none` =
attribute is `None`; outer `none` = no `APIError` was raised). -/
def raisedStatusCode {α : Type} : Except PyExc α → Option (Option Nat)
  | .error (.apiError _ sc _) => some sc
  | _ => none

/-- The state of one `httpx.AsyncClient` connection pool (external
collaborator).  `boundBaseUrl`, `defaultTimeoutSecs` (seconds, a float in
Python — exactly representable here, no arithmetic is done on it) and
`followRedirects` are the constructor arguments; `closed` is the closed state of
the client; `transportTeardowns` counts actual teardowns of the
underlying transport; `acloseCalls` counts invocations of `aclose`;
`requestsSent` counts requests issued over the pool. -/
structure Pool where
  boundBaseUrl : Option String
  defaultTimeoutSecs : Rat
  followRedirects : Bool
  closed : Bool
  transportTeardowns : Nat
  acloseCalls : Nat
  requestsSent : Nat
deriving DecidableEq, Repr

/-- Models `httpx.AsyncClient(base_url=..., timeout=..., follow_redirects=True)`:
constructing a pool opens no connection and sends no request (httpx
connects lazily on first use). -/
def httpxAsyncClient (baseUrl : String) (timeout : Rat) : Pool :=
  { boundBaseUrl := some baseUrl
    defaultTimeoutSecs := timeout
    followRedirects := true
    closed := false
    transportTeardowns := 0
    acloseCalls := 0
    requestsSent := 0 }

/-- Models `httpx.AsyncClient.aclose`: when the client is not yet closed it marks
it closed and tears down the underlying transport; on an already-closed
client it is a no-op (httpx guards on its closed state), so the transport
is never torn down twice. -/
def Pool.aclose (p : Pool) : Pool :=
  if p.closed then
    { p with acloseCalls := p.acloseCalls + 1 }
  else
    { p with closed := true
             acloseCalls := p.acloseCalls + 1
             transportTeardowns := p.transportTeardowns + 1 }

/-- The state of one `AsyncBaseClient` (clients.py lines 28–61):
`base_url`, the `_should_close_client` ownership flag, and `_client`, the
wrapped pool. -/
structure AsyncBaseClient where
  base_url : String
  should_close_client : Bool
  pool : Pool
deriving DecidableEq, Repr

/-- Embeds `AsyncBaseClient.__init__(base_url, timeout=10.0, client=None)`
(clients.py lines 33–61).  With a provided (shared) client the handle
wraps exactly that pool and `_should_close_client = False` (an
`httpx.AsyncClient` instance is always truthy, so `if client:` is the
`Option` match); with `client=None` a fresh pool is created, bound to
`base_url` with `timeout` as default and `follow_redirects=True`, and
`_should_close_client = True`.  The constructor performs no network
I/O in either branch. -/
def AsyncBaseClient.init (base_url : String) (timeout : Rat)
    (client : Option Pool) : AsyncBaseClient :=
  match client with
  | some shared =>
      { base_url := base_url, should_close_client := false, pool := shared }
  | none =>
      { base_url := base_url, should_close_client := true
        pool := httpxAsyncClient base_url timeout }

/-- Embeds `AsyncBaseClient.close` (clients.py lines 97–106): calls
`await self._client.aclose()` only when `_should_close_client` is set
(the `hasattr(self, "_client")` conjunct always holds once `__init__` has
run, since both branches assign `self._client`); otherwise only a debug
record is logged and nothing changes. -/
def AsyncBaseClient.close (c : AsyncBaseClient) : AsyncBaseClient :=
  if c.should_close_client then { c with pool := c.pool.aclose }
  else c

/-!
## Module evaluation of `clients.py`

Importing `clients.py` executes its top level: the imports (lines 5–19),
then each class body.  Executing the line
`def control_audio(self, session_id: Union[str, uuid.UUID], action: str) -> Dict[str, Any]:`
(line 150) evaluates the annotation expressions; the first name in
evaluation order that is bound neither in the globals of the module nor among
the built-ins raises `NameError` and aborts the import.
-/

/-- The names bound at module level in `clients.py` by the time line 150
executes: the imports of lines 5–14, the logger bindings of lines 17–24,
and the classes already defined. -/
def clients_module_globals : List String :=
  ["httpx", "asyncio", "Any", "Dict", "Optional", "Type", "Union",
   "BaseModel", "settings", "APIError", "QLogicResponse", "setup_logger",
   "log", "AsyncBaseClient", "AsyncIntegrationClient"]

/-- The Python built-ins the annotations of line 150 could fall back
to. -/
def python_builtins : List String :=
  ["str", "int", "float", "bool", "dict", "list", "Exception",
   "ValueError", "hasattr", "isinstance"]

/-- The names the annotation expressions of `control_audio` (line 150)
load, in evaluation order: `Union[str, uuid.UUID]` loads `Union`, `str`,
`uuid`; the `action` annotation loads `str`; the return annotation
`Dict[str, Any]` loads `Dict`, `str`, `Any`. -/
def control_audio_annotation_names : List String :=
  ["Union", "str", "uuid", "str", "Dict", "str", "Any"]

/-- Whether a name resolves at line 150 of `clients.py`. -/
def resolvesInClientsModule (name : String) : Bool :=
  clients_module_globals.contains name || python_builtins.contains name

/-- Evaluating the module `clients.py`: the first annotation name of line
150 that does not resolve raises `NameError`, aborting the import (so no
class of the module — in particular `AsyncSpeechApiClient` — ever becomes
available). -/
def import_clients_module : Except PyExc Unit :=
  match control_audio_annotation_names.find?
      (fun n => ¬ resolvesInClientsModule n) with
  | some n => .error (.nameError n)
  | none => .ok ()

/-!
## Helper lemmas
-/

/-- Evaluates `_handle_response` with a model, on a success-status response whose
body parses but fails schema validation, raises the decode `APIError` and
logs once. -/
theorem handle_response_validate_error (response : HttpResponse) (j : JVal) (e : PyExc)
    (hs : ¬ 400 ≤ response.statusCode) (hj : response.jsonBody = some j)
    (he : QLogicResponse.model_validate j = .error e) :
    handle_response response true
      = { result := .error (.apiError ("Error handling response: " ++ e.pyStr)
            (some response.statusCode) none)
          jsonCalls := 1
          logCalls := 1 } := by
  unfold handle_response
  rw [if_neg hs, hj]
  simp [he]

/-- Evaluates `_handle_response` with a model, on a success-status response whose
body is not valid JSON, raises the decode `APIError` and logs once. -/
theorem handle_response_no_json (response : HttpResponse)
    (hs : ¬ 400 ≤ response.statusCode) (hj : response.jsonBody = none) :
    handle_response response true
      = { result := .error (.apiError ("Error handling response: " ++ jsonDecodeDetail)
            (some response.statusCode) none)
          jsonCalls := 1
          logCalls := 1 } := by
  unfold handle_response
  rw [if_neg hs, hj]
  rfl

/-- The `except APIError: raise` clause of a service operation: an
`APIError` from `_handle_response` is re-raised to the caller unchanged,
with no extra log record. -/
theorem service_call_reraises (wrapMessage : String) (withModel : Bool) (url : String)
    (response : HttpResponse) (m : String) (sc : Option Nat) (fb : Option String)
    (hres : (handle_response response withModel).result = .error (.apiError m sc fb)) :
    service_call wrapMessage withModel url (.ok response)
      = { result := .error (.apiError m sc fb)
          netCalls := 1
          logCalls := (handle_response response withModel).logCalls
          path := some url } := by
  dsimp only [service_call]
  rw [hres]
  rfl

/-- The `except Exception` clause of a service operation on a network
failure of the `post` call: logged once, wrapped as `APIError` with no
status code, message carrying the underlying error text. -/
theorem service_call_wraps_net_error (wrapMessage : String) (withModel : Bool)
    (url : String) (e : PyExc) :
    service_call wrapMessage withModel url (.netError e)
      = { result := .error (.apiError (wrapMessage ++ e.pyStr) none none)
          netCalls := 1
          logCalls := 1
          path := some url } :=
  rfl

/-- Unfolding `model_validate` on a JSON object. -/
theorem model_validate_jobj (fields : List (String × JVal)) :
    QLogicResponse.model_validate (.jobj fields)
      = match lookupField fields "type" with
        | some (.jstr t) =>
            match lookupField fields "payload" with
            | none => .ok { type := t, payload := [] }
            | some (.jobj p) => .ok { type := t, payload := p }
            | some _ => .error (.pydanticError "payload: Input should be a valid dictionary")
        | some _ => .error (.pydanticError "type: Input should be a valid string")
        | none => .error (.pydanticError "type: Field required") :=
  rfl

/-- Unfolding `model_validate` on a JSON object whose `type` field is a
string. -/
theorem model_validate_jobj_type (fields : List (String × JVal)) (t : String)
    (ht : lookupField fields "type" = some (.jstr t)) :
    QLogicResponse.model_validate (.jobj fields)
      = match lookupField fields "payload" with
        | none => .ok { type := t, payload := [] }
        | some (.jobj p) => .ok { type := t, payload := p }
        | some _ => .error (.pydanticError "payload: Input should be a valid dictionary") := by
  rw [model_validate_jobj, ht]

/-- Every error `_handle_response` raises is an `APIError` (all three
`except` clauses construct one), the underlying native exception never
leaks, and exactly one log record is emitted at the detection point. -/
theorem handle_response_error_shape (response : HttpResponse) (withModel : Bool) :
    ∀ e : PyExc, (handle_response response withModel).result = .error e →
      (∃ msg sc, e = .apiError msg sc none)
      ∧ (handle_response response withModel).logCalls = 1 := by
  unfold handle_response
  split
  · intro e he
    injection he with h
    exact ⟨⟨_, _, h.symm⟩, rfl⟩
  · split
    · split
      · split
        · intro e he
          exact absurd he (by simp)
        · intro e he
          injection he with h
          exact ⟨⟨_, _, h.symm⟩, rfl⟩
      · intro e he
        injection he with h
        exact ⟨⟨_, _, h.symm⟩, rfl⟩
    · split
      · intro e he
        exact absurd he (by simp)
      · intro e he
        exact absurd he (by simp)

/-!
## The claims
-/

/-- C1 (as stated) is false: `control_audio` with the invalid action
"jump" raises the built-in `ValueError`, an exception that is not an
instance of the `ValidationError` class of the library (exceptions.py lines
41–58). -/
theorem C1_counterexample :
    (control_audio "session-1" "jump" (.netError (.requestError "unused"))).result
      = .error (.valueError
          "Invalid action for control_audio, must be \x27pause\x27 or \x27resume\x27")
    ∧ (PyExc.valueError
        "Invalid action for control_audio, must be \x27pause\x27 or \x27resume\x27").isInstanceOf
        PyType.ValidationError = false :=
  ⟨rfl, rfl⟩

/-- C1 (amended): for every session_id and every action other than
"pause" and "resume", `control_audio` raises the built-in `ValueError`
(not the `ValidationError` of the library) before any network call: zero
requests are issued on the pool, whatever the pool would have
answered. -/
theorem C1_invalid_action_raises_before_dispatch
    (sessionId action : String) (dispatch : DispatchOutcome)
    (h1 : action ≠ "pause") (h2 : action ≠ "resume") :
    (control_audio sessionId action dispatch).result
      = .error (.valueError
          "Invalid action for control_audio, must be \x27pause\x27 or \x27resume\x27")
    ∧ (control_audio sessionId action dispatch).netCalls = 0
    ∧ (control_audio sessionId action dispatch).path = none := by
  have h : ¬ (action = "pause" ∨ action = "resume") := by
    rintro (h | h)
    · exact h1 h
    · exact h2 h
  unfold control_audio
  rw [if_pos h]
  exact ⟨rfl, rfl, rfl⟩

/-- C1 witness: the amended theorem at session "abc", action "jump". -/
theorem C1_invalid_action_witness :
    (control_audio "abc" "jump" (.netError (.requestError "boom"))).result
      = .error (.valueError
          "Invalid action for control_audio, must be \x27pause\x27 or \x27resume\x27")
    ∧ (control_audio "abc" "jump" (.netError (.requestError "boom"))).netCalls = 0
    ∧ (control_audio "abc" "jump" (.netError (.requestError "boom"))).path = none :=
  C1_invalid_action_raises_before_dispatch "abc" "jump" (.netError (.requestError "boom"))
    (by decide) (by decide)

/-- C2: every response with status >= 400 makes `_handle_response` raise
`APIError` whose `status_code` equals the status code of the response and
whose message carries the body truncated to its first 200 characters,
regardless of the body and of whether a model was requested; and
`response.json()` is never invoked (the status check precedes any body
parsing). -/
theorem C2_status_error (response : HttpResponse) (withModel : Bool)
    (h : 400 ≤ response.statusCode) :
    (handle_response response withModel).result
      = .error (.apiError
          ("API request failed: " ++ toString response.statusCode ++ " "
            ++ response.reasonPhrase ++ " - " ++ response.body.take 200)
          (some response.statusCode) none)
    ∧ (handle_response response withModel).jsonCalls = 0 := by
  unfold handle_response
  rw [if_pos h]
  exact ⟨rfl, rfl⟩

/-- C2 witness: a 503 response with body "overloaded", requested with a
model. -/
theorem C2_status_error_witness :
    (handle_response
        { statusCode := 503, reasonPhrase := "Service Unavailable",
          body := "overloaded", jsonBody := none } true).result
      = .error (.apiError
          ("API request failed: " ++ toString (503 : Nat) ++ " "
            ++ "Service Unavailable" ++ " - " ++ ("overloaded" : String).take 200)
          (some 503) none)
    ∧ (handle_response
        { statusCode := 503, reasonPhrase := "Service Unavailable",
          body := "overloaded", jsonBody := none } true).jsonCalls = 0 :=
  C2_status_error
    { statusCode := 503, reasonPhrase := "Service Unavailable",
      body := "overloaded", jsonBody := none } true (by decide)

/-- C3: a handle constructed without a shared pool owns a fresh pool
bound with redirect-following enabled and the given timeout as default;
`close` tears the transport of the pool down exactly once even when called
twice (the second `aclose` finds the pool already closed and is a
no-op inside httpx). -/
theorem C3_owned_pool_torn_down_once (base_url : String) (timeout : Rat) :
    (AsyncBaseClient.init base_url timeout none).should_close_client = true
    ∧ (AsyncBaseClient.init base_url timeout none).pool.followRedirects = true
    ∧ (AsyncBaseClient.init base_url timeout none).pool.defaultTimeoutSecs = timeout
    ∧ (AsyncBaseClient.init base_url timeout none).pool.closed = false
    ∧ ((AsyncBaseClient.init base_url timeout none).close).pool.transportTeardowns = 1
    ∧ ((AsyncBaseClient.init base_url timeout none).close.close).pool.transportTeardowns = 1
    ∧ ((AsyncBaseClient.init base_url timeout none).close.close).pool.closed = true :=
  ⟨rfl, rfl, rfl, rfl, rfl, rfl, rfl⟩

/-- C4: a handle constructed with a caller-supplied shared pool has
`owns_pool = false` and wraps exactly that pool (no network I/O, no state
change at construction); `close` leaves the whole handle — in particular
the lifecycle state of the pool — unchanged, on the first call and on the
second. -/
theorem C4_borrowed_pool_release_noop (base_url : String) (timeout : Rat) (p : Pool) :
    (AsyncBaseClient.init base_url timeout (some p)).should_close_client = false
    ∧ (AsyncBaseClient.init base_url timeout (some p)).pool = p
    ∧ (AsyncBaseClient.init base_url timeout (some p)).close
        = AsyncBaseClient.init base_url timeout (some p)
    ∧ (AsyncBaseClient.init base_url timeout (some p)).close.close
        = AsyncBaseClient.init base_url timeout (some p) :=
  ⟨rfl, rfl, rfl, rfl⟩

/-- C5: for a response with status < 400 whose body is not valid JSON,
`_handle_response` with a requested model raises the decode `APIError`
(the wrapped `JSONDecodeError`), while without a model it returns the raw
body text unchanged and raises nothing. -/
theorem C5_non_json_body (response : HttpResponse)
    (hs : response.statusCode < 400) (hj : response.jsonBody = none) :
    (handle_response response true).result
      = .error (.apiError ("Error handling response: " ++ jsonDecodeDetail)
          (some response.statusCode) none)
    ∧ (handle_response response false).result = .ok (.rawText response.body) := by
  have h : ¬ (400 ≤ response.statusCode) := Nat.not_le.mpr hs
  constructor
  · unfold handle_response
    rw [if_neg h, hj]
    rfl
  · unfold handle_response
    rw [if_neg h, hj]
    rfl

/-- C5 witness: a 200 response with non-JSON body "plain text". -/
theorem C5_non_json_body_witness :
    (handle_response
        { statusCode := 200, reasonPhrase := "OK",
          body := "plain text", jsonBody := none } true).result
      = .error (.apiError ("Error handling response: " ++ jsonDecodeDetail)
          (some 200) none)
    ∧ (handle_response
        { statusCode := 200, reasonPhrase := "OK",
          body := "plain text", jsonBody := none } false).result
      = .ok (.rawText "plain text") :=
  C5_non_json_body
    { statusCode := 200, reasonPhrase := "OK", body := "plain text", jsonBody := none }
    (by decide) rfl

/-- C9: `clients.py` line 150 annotates `session_id` with
`Union[str, uuid.UUID]` but the module never imports `uuid`; the
annotation is evaluated when the class body runs at import time, so
evaluating the module raises `NameError` on the name "uuid" and no client
class of the module can ever be constructed. -/
theorem C9_module_import_raises_nameerror :
    import_clients_module = .error (.nameError "uuid")
    ∧ resolvesInClientsModule "uuid" = false
    ∧ resolvesInClientsModule "Union" = true
    ∧ resolvesInClientsModule "str" = true :=
  ⟨rfl, rfl, rfl, rfl⟩

/-- C6: `route_turn` decodes successful responses against the
`QLogicResponse` schema: on the well-formed body
`\x7b"type":"prompt","payload":\x7b"text":"hi"\x7d\x7d` it returns the
typed value with `type = "prompt"` and `payload = \x7b"text":"hi"\x7d`;
on any JSON body that fails schema validation it raises the decode
`APIError` (the wrapped pydantic error). -/
theorem C6_route_turn_schema (response : HttpResponse) (j : JVal) (e : PyExc)
    (hs : response.statusCode < 400) (hj : response.jsonBody = some j)
    (he : QLogicResponse.model_validate j = .error e) :
    (route_turn (.ok
        { statusCode := 200, reasonPhrase := "OK",
          body := "\x7b\"type\":\"prompt\",\"payload\":\x7b\"text\":\"hi\"\x7d\x7d",
          jsonBody := some (.jobj [("type", .jstr "prompt"),
            ("payload", .jobj [("text", .jstr "hi")])]) })).result
      = .ok (.typed { type := "prompt", payload := [("text", .jstr "hi")] })
    ∧ (route_turn (.ok response)).result
      = .error (.apiError ("Error handling response: " ++ e.pyStr)
          (some response.statusCode) none) := by
  refine ⟨rfl, ?_⟩
  have h1 := handle_response_validate_error response j e (Nat.not_le.mpr hs) hj he
  have h2 := service_call_reraises "Unexpected error routing turn: " true
    "/qlogic/route_turn" response ("Error handling response: " ++ e.pyStr)
    (some response.statusCode) none (by rw [h1])
  unfold route_turn
  rw [h2]

/-- C6 witness: the concrete well-formed body, and the schema-mismatch
body `[]` (a JSON array, rejected by `model_validate`) on a 200
response. -/
theorem C6_route_turn_schema_witness :
    (route_turn (.ok
        { statusCode := 200, reasonPhrase := "OK",
          body := "\x7b\"type\":\"prompt\",\"payload\":\x7b\"text\":\"hi\"\x7d\x7d",
          jsonBody := some (.jobj [("type", .jstr "prompt"),
            ("payload", .jobj [("text", .jstr "hi")])]) })).result
      = .ok (.typed { type := "prompt", payload := [("text", .jstr "hi")] })
    ∧ (route_turn (.ok
        { statusCode := 200, reasonPhrase := "OK", body := "[]",
          jsonBody := some (.jarr []) })).result
      = .error (.apiError ("Error handling response: "
            ++ (PyExc.pydanticError "Input should be a valid dictionary").pyStr)
          (some 200) none) :=
  C6_route_turn_schema
    { statusCode := 200, reasonPhrase := "OK", body := "[]", jsonBody := some (.jarr []) }
    (.jarr []) (.pydanticError "Input should be a valid dictionary")
    (by decide) rfl rfl

/-- C7 (as stated) is false: the code defines no `TransportError`,
`StatusError` or `DecodeError` class at all (exceptions.py defines only
`CabreaichError`, `APIError`, `ValidationError`), and a network-level
failure and a decode failure are raised with the same exception class
`APIError` — not as distinguishable kinds of a four-way tagged union. -/
theorem C7_counterexample :
    PyType.TransportError ∉ exceptions_module_types
    ∧ PyType.StatusError ∉ exceptions_module_types
    ∧ PyType.DecodeError ∉ exceptions_module_types
    ∧ raisedType (route_turn (.netError (.requestError "Connection refused"))).result
        = some PyType.APIError
    ∧ raisedType (route_turn (.ok
        { statusCode := 200, reasonPhrase := "OK",
          body := "not json", jsonBody := none })).result
        = some PyType.APIError :=
  ⟨by decide, by decide, by decide, rfl, rfl⟩

/-- C7 (amended): the error taxonomy of the code is the two classes
`APIError` and `ValidationError`; every httpx network-level failure of a
dispatch is raised as `APIError` with `status_code = None` whose message
carries the text of the underlying error (for each of the three operations),
distinguishable from an HTTP-status failure — whose `APIError` carries
`status_code = the status of the response` — only by that field, not by
class. -/
theorem C7_network_failure_is_apierror (m sessionId : String)
    (response : HttpResponse) (h : 400 ≤ response.statusCode) :
    (route_turn (.netError (.requestError m))).result
      = .error (.apiError ("Unexpected error routing turn: " ++ m) none none)
    ∧ (post_event (.netError (.requestError m))).result
      = .error (.apiError ("Unexpected error posting event: " ++ m) none none)
    ∧ (control_audio sessionId "pause" (.netError (.requestError m))).result
      = .error (.apiError ("Unexpected error controlling speech audio: " ++ m) none none)
    ∧ raisedStatusCode (route_turn (.netError (.requestError m))).result = some none
    ∧ raisedStatusCode (handle_response response true).result
      = some (some response.statusCode) := by
  refine ⟨rfl, rfl, ?_, rfl, ?_⟩
  · unfold control_audio
    rw [if_neg (by decide)]
    rfl
  · unfold handle_response
    rw [if_pos h]
    rfl

/-- C7 witness: a connection timeout against a 500 response. -/
theorem C7_network_failure_witness :
    (route_turn (.netError (.requestError "timed out"))).result
      = .error (.apiError ("Unexpected error routing turn: " ++ "timed out") none none)
    ∧ (post_event (.netError (.requestError "timed out"))).result
      = .error (.apiError ("Unexpected error posting event: " ++ "timed out") none none)
    ∧ (control_audio "s1" "pause" (.netError (.requestError "timed out"))).result
      = .error (.apiError ("Unexpected error controlling speech audio: " ++ "timed out")
          none none)
    ∧ raisedStatusCode (route_turn (.netError (.requestError "timed out"))).result
      = some none
    ∧ raisedStatusCode (handle_response
        { statusCode := 500, reasonPhrase := "Internal Server Error",
          body := "", jsonBody := none } true).result
      = some (some 500) :=
  C7_network_failure_is_apierror "timed out" "s1"
    { statusCode := 500, reasonPhrase := "Internal Server Error",
      body := "", jsonBody := none }
    (by decide)

/-- C8: every error arising in the dispatch/decode pipeline of the three
service operations is logged exactly once at its detection point and then
re-raised to the caller unchanged (never swallowed, never replaced by a
default result), and an unexpected exception during decoding surfaces as
`APIError` — never as the native `JSONDecodeError`/pydantic class. -/
theorem C8_errors_logged_once_and_reraised :
    (∀ response : HttpResponse, ∀ e : PyExc,
        (handle_response response true).result = .error e →
          e.ty = PyType.APIError
          ∧ (handle_response response true).logCalls = 1
          ∧ (route_turn (.ok response)).result = .error e
          ∧ (route_turn (.ok response)).logCalls = 1)
    ∧ (∀ response : HttpResponse, ∀ e : PyExc,
        (handle_response response false).result = .error e →
          e.ty = PyType.APIError
          ∧ (post_event (.ok response)).result = .error e
          ∧ (post_event (.ok response)).logCalls = 1
          ∧ ∀ sessionId, (control_audio sessionId "resume" (.ok response)).result = .error e)
    ∧ (∀ m : String,
        (route_turn (.netError (.requestError m))).result
            = .error (.apiError ("Unexpected error routing turn: " ++ m) none none)
          ∧ (route_turn (.netError (.requestError m))).logCalls = 1) := by
  refine ⟨?_, ?_, ?_⟩
  · intro response e he
    obtain ⟨⟨msg, sc, rfl⟩, hlog⟩ := handle_response_error_shape response true e he
    have h2 := service_call_reraises "Unexpected error routing turn: " true
      "/qlogic/route_turn" response msg sc none he
    unfold route_turn
    rw [h2, hlog]
    exact ⟨rfl, rfl, rfl, rfl⟩
  · intro response e he
    obtain ⟨⟨msg, sc, rfl⟩, hlog⟩ := handle_response_error_shape response false e he
    have h2 := service_call_reraises "Unexpected error posting event: " false
      "/integration/event" response msg sc none he
    have h3 := service_call_reraises "Unexpected error controlling speech audio: " false
      ("/session/" ++ "" ++ "/audio/" ++ "resume") response msg sc none he
    refine ⟨rfl, ?_, ?_, ?_⟩
    · unfold post_event
      rw [h2]
    · unfold post_event
      rw [h2, hlog]
    · intro sessionId
      have h4 := service_call_reraises "Unexpected error controlling speech audio: " false
        ("/session/" ++ sessionId ++ "/audio/" ++ "resume") response msg sc none he
      unfold control_audio
      rw [if_neg (by decide)]
      rw [h4]
  · intro m
    exact ⟨rfl, rfl⟩

/-- C10: the `QLogicResponse` schema treats `payload` as optional with
default `\x7b\x7d` and allows extra fields: the body `\x7b"type":"x"\x7d`
validates to the typed value with empty payload (so `route_turn` on it
succeeds rather than raising), and over JSON-object bodies validation
succeeds exactly when `type` is present as a string and `payload`, when
present, is a map. -/
theorem C10_payload_optional_extras_allowed :
    QLogicResponse.model_validate (.jobj [("type", .jstr "x")])
      = .ok { type := "x", payload := [] }
    ∧ (route_turn (.ok
        { statusCode := 200, reasonPhrase := "OK", body := "\x7b\"type\":\"x\"\x7d",
          jsonBody := some (.jobj [("type", .jstr "x")]) })).result
      = .ok (.typed { type := "x", payload := [] })
    ∧ ∀ fields : List (String × JVal),
        (∃ r, QLogicResponse.model_validate (.jobj fields) = .ok r)
          ↔ ((∃ t, lookupField fields "type" = some (.jstr t))
              ∧ ∀ v, lookupField fields "payload" = some v → ∃ p, v = .jobj p) := by
  refine ⟨rfl, rfl, ?_⟩
  intro fields
  constructor
  · rintro ⟨r, hr⟩
    cases ht : lookupField fields "type" with
    | none =>
        rw [model_validate_jobj, ht] at hr
        exact absurd hr (by simp)
    | some v =>
        cases v with
        | jstr t =>
            rw [model_validate_jobj_type fields t ht] at hr
            refine ⟨⟨t, rfl⟩, ?_⟩
            intro w hw
            rw [hw] at hr
            cases w with
            | jobj p => exact ⟨p, rfl⟩
            | jnull => exact absurd hr (by simp)
            | jbool b => exact absurd hr (by simp)
            | jnum l => exact absurd hr (by simp)
            | jstr s => exact absurd hr (by simp)
            | jarr xs => exact absurd hr (by simp)
        | jnull =>
            rw [model_validate_jobj, ht] at hr
            exact absurd hr (by simp)
        | jbool b =>
            rw [model_validate_jobj, ht] at hr
            exact absurd hr (by simp)
        | jnum l =>
            rw [model_validate_jobj, ht] at hr
            exact absurd hr (by simp)
        | jarr xs =>
            rw [model_validate_jobj, ht] at hr
            exact absurd hr (by simp)
        | jobj fs =>
            rw [model_validate_jobj, ht] at hr
            exact absurd hr (by simp)
  · rintro ⟨⟨t, ht⟩, hp⟩
    cases hq : lookupField fields "payload" with
    | none =>
        exact ⟨{ type := t, payload := [] },
          by rw [model_validate_jobj_type fields t ht, hq]⟩
    | some v =>
        obtain ⟨p, rfl⟩ := hp v hq
        exact ⟨{ type := t, payload := p },
          by rw [model_validate_jobj_type fields t ht, hq]⟩

end Cabreaich
